import Mathlib

/-!
# Verification of the mult-version smart pointer (`smart_ptr.go`)

This file gives a shallow embedding of the Go source `smart_ptr.go` and
settles the specification claims against it.

Modelling choices:
* Handles live in a heap `handles : List Handle`; a handle is identified by
  its index (its "pointer identity").  `kInuse` is the handle allocated first
  (id 0, line 35 of the source), the bootstrap `latestImmRscHandle` is the
  handle allocated second (id 1, line 58).  Both wrap the Go `nil` resource,
  modelled as `none`.
* A slot of `gLocalImmRscHandles` holds `none` (Go `nil`), `some kInuseId`
  (the sentinel pointer), or `some h` for a cached handle.  The array is a
  total function `Nat → Option HandleId`; indices outside `[0, CAPACITY)`
  fault, as Go array indexing does.
* Executions are sequences of whole calls (a legal concurrent schedule in
  which calls do not overlap).  Every counterexample below is therefore a
  legal concurrent execution as well.  The mutex is modelled only by the
  counter `locks` (incremented at each `Lock()`), which lets theorems observe
  whether the slow path of `GetResouce` ever acquired it.
* A Go `panic`, and a method call on a `nil` interface value (which faults at
  run time), end the execution: results are `SPResult`, either `ok` or
  `fatal` with the state at the fault.
* `refcnt` is a Go `int32`; it is modelled as `Int` since no claim involves
  wraparound (reaching it would need 2^31 live references).
* Each `Delete()` invocation on a real resource is appended to the log
  `deleted`, so "disposed exactly once" is observable.
-/

/-- Capacity of the `gLocalImmRscHandles` array (source line 34). -/
def CAPACITY : Nat := 1024

/-- Pointer identity of a heap-allocated `ImmRscHandle`: its index in the heap. -/
abbrev HandleId := Nat

/-- The state of one `ImmRscHandle` (source lines 162-165): a reference count
and the wrapped resource.  `none` models a Go `nil` `ImmutableResource`;
`some r` wraps the user resource with identity `r`. -/
structure Handle where
  refcnt : Int
  R : Option Nat
  deriving Repr, DecidableEq

/-- The distinct fatal outcomes of the Go code: each `panic(...)` site and the
run-time faults (array index out of range; method call on a nil interface). -/
inductive Fatal where
  /-- panic "unallocated goroutine ID" (line 81) -/
  | unallocatedGID
  /-- panic "gLocalImmRscHandles[gID] must be either a valid ptr or a nil set by writer" (line 100) -/
  | slotProtocol
  /-- panic "gLocalImmRscHandles[i] does not hold the latest version" (line 137) -/
  | staleSlot
  /-- panic "bad refcnt" inside the invalidation loop of UpdateResouce (line 140) -/
  | badRefcntLoop
  /-- panic "bad refcnt" in Ref (line 171) or Unref (line 181) -/
  | badRefcnt
  /-- run-time fault: `p.R.Delete()` with `p.R` the nil interface (line 178) -/
  | nilDelete
  /-- run-time fault: array index out of range on `gLocalImmRscHandles` -/
  | indexOutOfRange
  deriving Repr, DecidableEq

/-- The shared mutable state of the Go package. -/
structure SPState where
  /-- `maxGID` (line 33), starts at -1. -/
  maxGID : Int
  /-- `gLocalImmRscHandles` (line 34): slot contents by index. -/
  slots : Nat → Option HandleId
  /-- the heap of all `ImmRscHandle`s allocated so far; id = index. -/
  handles : List Handle
  /-- `latestImmRscHandle` (line 58). -/
  latest : HandleId
  /-- log of `Delete()` invocations on real resources, in order. -/
  deleted : List Nat
  /-- number of `latestImmRscHandleMutex.Lock()` calls performed so far. -/
  locks : Nat

/-- Result of running a call: normal return with a value and the new state, or
a fatal panic/fault with the state at the fault. -/
inductive SPResult (α : Type) where
  | ok : α → SPState → SPResult α
  | fatal : Fatal → SPState → SPResult α

/-- The state carried by a result (final state, or state at the fault). -/
def SPResult.state : SPResult α → SPState
  | .ok _ s => s
  | .fatal _ s => s

/-- The fatal outcome of a result, if any. -/
def SPResult.fatalKind : SPResult α → Option Fatal
  | .ok _ _ => none
  | .fatal e _ => some e

/-- The returned value of a result, if it returned normally. -/
def SPResult.value : SPResult α → Option α
  | .ok a _ => some a
  | .fatal _ _ => none

/-- Read a handle from the heap (a `HandleId` is always in range in any state
produced by the operations; out-of-range reads default harmlessly). -/
def getHandle (s : SPState) (h : HandleId) : Handle :=
  s.handles.getD h ⟨0, none⟩

/-- Overwrite the reference count of handle `h`. -/
def setRefcnt (s : SPState) (h : HandleId) (c : Int) : SPState :=
  { s with handles := s.handles.set h ⟨c, (getHandle s h).R⟩ }

/-- Overwrite slot `i` of `gLocalImmRscHandles`. -/
def setSlot (s : SPState) (i : Nat) (v : Option HandleId) : SPState :=
  { s with slots := fun j => if j = i then v else s.slots j }

/-- `newImmRscHandle` (lines 154-159): heap-allocate a handle with refcnt 1
wrapping `rsc`; returns its id and the new state. -/
def newImmRscHandle (s : SPState) (rsc : Option Nat) : HandleId × SPState :=
  (s.handles.length, { s with handles := s.handles ++ [⟨1, rsc⟩] })

/-- `kInuse` (line 35) is the first handle ever allocated: id 0. -/
def kInuseId : HandleId := 0

/-- The package state after the `var` initializers ran: `kInuse` (id 0) and the
bootstrap `latestImmRscHandle` (id 1) exist, `maxGID = -1`, all slots are the
Go zero value `nil`. -/
def initState : SPState where
  maxGID := -1
  slots := fun _ => none
  handles := [⟨1, none⟩, ⟨1, none⟩]
  latest := 1
  deleted := []
  locks := 0

/-- `Ref` (lines 169-174): atomically increment `refcnt`; panic "bad refcnt"
if the incremented value is ≤ 0; return the same pointer. -/
def Ref (s : SPState) (p : HandleId) : SPResult HandleId :=
  let c := (getHandle s p).refcnt + 1
  let s1 := setRefcnt s p c
  if c ≤ 0 then .fatal .badRefcnt s1 else .ok p s1

/-- `Unref` (lines 175-185): atomically decrement `refcnt`.  If the result is
0, call `p.R.Delete()` (a fault when `R` is the nil interface) and return
`true`; if negative, panic "bad refcnt"; otherwise return `false`. -/
def Unref (s : SPState) (p : HandleId) : SPResult Bool :=
  let c := (getHandle s p).refcnt - 1
  let s1 := setRefcnt s p c
  if c = 0 then
    match (getHandle s p).R with
    | none => .fatal .nilDelete s1
    | some r => .ok true { s1 with deleted := s1.deleted ++ [r] }
  else if c < 0 then .fatal .badRefcnt s1
  else .ok false s1

/-- `atomicSwapGLocalImmRscHandle` (lines 38-41), translated statement by
statement: line 39 first performs a PLAIN store of `new` into the slot, then
line 40 atomically swaps `new` into the slot and returns the previous
contents — which the store on line 39 just set to `new`.  Indexing outside
the array faults. -/
def atomicSwapGLocalImmRscHandle (s : SPState) (gID : Int) (new : Option HandleId) :
    SPResult (Option HandleId) :=
  if gID < 0 ∨ (CAPACITY : Int) ≤ gID then .fatal .indexOutOfRange s
  else
    let s1 := setSlot s gID.toNat new
    let prev := s1.slots gID.toNat
    .ok prev (setSlot s1 gID.toNat new)

/-- `atomicCmpAndSwapGLocalImmRscHandles` (lines 42-48): first a plain read
compares the slot with `old` and, on equality, a plain store installs `new`
(lines 43-46); otherwise the atomic compare-and-swap on line 47 runs, which
re-reads the (unchanged) slot. -/
def atomicCmpAndSwapGLocalImmRscHandles (s : SPState) (gID : Int)
    (old new : Option HandleId) : SPResult Bool :=
  if gID < 0 ∨ (CAPACITY : Int) ≤ gID then .fatal .indexOutOfRange s
  else if s.slots gID.toNat = old then .ok true (setSlot s gID.toNat new)
  else if s.slots gID.toNat = old then .ok true (setSlot s gID.toNat new)
  else .ok false s

/-- `AllocateGLocalImmRscHandle` (lines 52-56): `newId := atomic.AddInt32(&maxGID, 1)`,
then `gLocalImmRscHandles[newId] = nil` (an index fault once `newId` reaches
the array capacity), then return `newId`. -/
def AllocateGLocalImmRscHandle (s : SPState) : SPResult Int :=
  let newId := s.maxGID + 1
  let s1 := { s with maxGID := newId }
  if newId < 0 ∨ (CAPACITY : Int) ≤ newId then .fatal .indexOutOfRange s1
  else .ok newId (setSlot s1 newId.toNat none)

/-- Lines 95-116 of `GetResouce`: the branch on the value `loc` captured by the
swap on line 94, followed by the `mightShare` re-cache attempt.  Kept as its
own definition so theorems can speak about each branch of the source. -/
def getResouceAfterSwap (s : SPState) (gID : Int) (mightShare : Bool)
    (loc : Option HandleId) : SPResult HandleId :=
  let branch : SPResult HandleId :=
    if loc = none then
      let s1 := { s with locks := s.locks + 1 }
      match Ref s1 s1.latest with
      | .fatal e s2 => .fatal e s2
      | .ok res s2 => .ok res s2
    else if loc = some kInuseId then .fatal .slotProtocol s
    else .ok (loc.getD 0) s
  match branch with
  | .fatal e s1 => .fatal e s1
  | .ok res s1 =>
    if mightShare then
      match Ref s1 res with
      | .fatal e s2 => .fatal e s2
      | .ok copy s2 =>
        match atomicCmpAndSwapGLocalImmRscHandles s2 gID (some kInuseId) (some copy) with
        | .fatal e s3 => .fatal e s3
        | .ok true s3 => .ok res s3
        | .ok false s3 =>
          match Unref s3 res with
          | .fatal e s4 => .fatal e s4
          | .ok _ s4 => .ok res s4
    else .ok res s1

/-- `GetResouce` (lines 79-117): validate `gID`, swap the sentinel into the
slot capturing `loc` (line 94), then run the branch logic of lines 95-116. -/
def GetResouce (s : SPState) (gID : Int) (mightShare : Bool) : SPResult HandleId :=
  if gID < 0 ∨ s.maxGID < gID then .fatal .unallocatedGID s
  else
    match atomicSwapGLocalImmRscHandle s gID (some kInuseId) with
    | .fatal e s1 => .fatal e s1
    | .ok loc s1 => getResouceAfterSwap s1 gID mightShare loc

/-- `DoneUsingResource` (lines 119-124): try to CAS the slot from the sentinel
back to `gotFromLocal`; on failure the caller itself `Unref`s. -/
def DoneUsingResource (s : SPState) (gID : Int) (gotFromLocal : HandleId) :
    SPResult Unit :=
  match atomicCmpAndSwapGLocalImmRscHandles s gID (some kInuseId) (some gotFromLocal) with
  | .fatal e s1 => .fatal e s1
  | .ok true s1 => .ok () s1
  | .ok false s1 =>
    match Unref s1 gotFromLocal with
    | .fatal e s2 => .fatal e s2
    | .ok _ s2 => .ok () s2

/-- The invalidation loop of `UpdateResouce` (lines 133-143), iterating over
the worker indices: swap each slot to `nil` capturing `loc`; if `loc` is
neither the sentinel nor `nil`, panic unless it equals `old`, then `Unref` it
and panic "bad refcnt" if that released the last reference. -/
def updateInvalidate (old : HandleId) : List Nat → SPState → SPResult Unit
  | [], s => .ok () s
  | i :: rest, s =>
    match atomicSwapGLocalImmRscHandle s (i : Int) none with
    | .fatal e s1 => .fatal e s1
    | .ok loc s1 =>
      if loc ≠ some kInuseId ∧ loc ≠ none then
        if ¬ (some old = loc) then .fatal .staleSlot s1
        else
          match Unref s1 (loc.getD 0) with
          | .fatal e s2 => .fatal e s2
          | .ok true s2 => .fatal .badRefcntLoop s2
          | .ok false s2 => updateInvalidate old rest s2
      else updateInvalidate old rest s1

/-- `UpdateResouce` (lines 127-150): under the mutex, record `old`, install a
fresh handle around `r` as latest, run the invalidation loop over
`0 ≤ i ≤ maxGID`, unlock, and finally `Unref` the outgoing handle. -/
def UpdateResouce (s : SPState) (r : Nat) : SPResult Unit :=
  let s0 := { s with locks := s.locks + 1 }
  let old := s0.latest
  let (newH, s1) := newImmRscHandle s0 (some r)
  let s2 := { s1 with latest := newH }
  match updateInvalidate old (List.range (s2.maxGID + 1).toNat) s2 with
  | .fatal e s3 => .fatal e s3
  | .ok _ s3 =>
    match Unref s3 old with
    | .fatal e s4 => .fatal e s4
    | .ok _ s4 => .ok () s4

/-! ## Concrete states and executions used by the claim theorems -/

/-- The state after the single call `AllocateGLocalImmRscHandle()` on the fresh
package: worker 0 is allocated (`maxGID = 0`) and its slot is empty. -/
def allocSt1 : SPState := (AllocateGLocalImmRscHandle initState).state

/-- The run of `UpdateResouce` with resource 7 as the very first call on the
fresh package. -/
def updA7 : SPResult Unit := UpdateResouce initState 7

/-- A state in which worker 0 exists, its slot holds the sentinel (a reader is
mid-flight between `GetResouce` and `DoneUsingResource`), and the current
latest handle is id 2, wrapping resource 7 with refcount 2 (the global slot
plus the in-flight reader). -/
def stC4 : SPState where
  maxGID := 0
  slots := fun j => if j = 0 then some kInuseId else none
  handles := [⟨1, none⟩, ⟨1, none⟩, ⟨2, some 7⟩]
  latest := 2
  deleted := []
  locks := 0

/-- The `DoneUsingResource(0, 2)` call on `stC4`: its CAS from the sentinel
succeeds, so the caller stores its reference back into the slot and performs
no release. -/
def c4Done : SPResult Unit := DoneUsingResource stC4 0 2

/-- The subsequent `UpdateResouce` with resource 9, which per the claim ought
to release the reference cached by `c4Done`. -/
def c4Upd : SPResult Unit := UpdateResouce c4Done.state 9

/-- A state in which worker 0 exists and its slot caches the current latest
handle (id 2, resource 7, refcount 2: global slot plus the worker cache). -/
def stC5 : SPState where
  maxGID := 0
  slots := fun j => if j = 0 then some 2 else none
  handles := [⟨1, none⟩, ⟨1, none⟩, ⟨2, some 7⟩]
  latest := 2
  deleted := []
  locks := 0

/-- The `UpdateResouce` call with resource 9 on `stC5`, whose invalidation
loop per the claim ought to capture the cached copy of handle 2 and release
it. -/
def c5Upd : SPResult Unit := UpdateResouce stC5 9

/-- A state with NO allocated workers (`maxGID = -1`) and a live handle
(id 2, resource 7, refcount 2) held by some caller. -/
def stC9 : SPState where
  maxGID := -1
  slots := fun _ => none
  handles := [⟨1, none⟩, ⟨1, none⟩, ⟨2, some 7⟩]
  latest := 1
  deleted := []
  locks := 0

/-- Follows the spec wording of releaseReference (section 4.2): atomically
decrement the refcount; if the result is zero, dispose the resource and
return true; if negative, a fatal refcount-corruption error; otherwise
return false.  Compared against the source's `Unref` in claim C6. -/
def releaseReferenceSpec (s : SPState) (p : HandleId) : SPResult Bool :=
  let c := (getHandle s p).refcnt - 1
  let s1 := setRefcnt s p c
  if c = 0 then .ok true { s1 with deleted := s1.deleted ++ (getHandle s p).R.toList }
  else if c < 0 then .fatal .badRefcnt s1
  else .ok false s1

/-! ## Helper lemmas -/

/-- The CAS helper can only fault with an array-index error, never with the
invalid-identifier panic. -/
theorem cas_no_unallocated (s : SPState) (gID : Int) (old new : Option HandleId) :
    (atomicCmpAndSwapGLocalImmRscHandles s gID old new).fatalKind ≠ some .unallocatedGID := by
  unfold atomicCmpAndSwapGLocalImmRscHandles
  split <;> try split
  all_goals simp [SPResult.fatalKind]

/-- Unref can only fault with a refcount panic or the nil-resource Delete
fault, never with the invalid-identifier panic. -/
theorem unref_no_unallocated (s : SPState) (p : HandleId) :
    (Unref s p).fatalKind ≠ some .unallocatedGID := by
  unfold Unref
  dsimp only
  split
  · split <;> simp [SPResult.fatalKind]
  · split <;> simp [SPResult.fatalKind]

/-! ## Claim theorems -/

/-- C1 (code_bug): with the code as written, the exactly-once disposal
guarantee fails on the simplest execution: the very first `UpdateResouce`
call faults (its final `old.Unref()` drops the bootstrap handle, whose
resource is the Go nil interface, to refcount 0 and calls `Delete()` on
nil), so the published resource 7 is never disposed at all — the dispose
log is empty when the execution dies. -/
theorem C1_first_update_faults_published_resource_never_disposed :
    updA7.fatalKind = some .nilDelete ∧ updA7.state.deleted = [] := ⟨rfl, rfl⟩

/-- C2 (code_bug): with a single allocated worker and no concurrency at all,
the value captured by `GetResouce`'s initial swap is the sentinel itself —
because `atomicSwapGLocalImmRscHandle` (source line 39) plainly stores the
new value into the slot before the atomic swap — and `GetResouce` therefore
takes the fatal protocol-violation branch on its very first call. -/
theorem C2_get_swap_captures_sentinel_and_faults :
    (atomicSwapGLocalImmRscHandle allocSt1 0 (some kInuseId)).value = some (some kInuseId) ∧
    (GetResouce allocSt1 0 false).fatalKind = some .slotProtocol := ⟨rfl, rfl⟩

/-- C3 (code_bug): on a freshly allocated worker whose slot is empty,
`GetResouce` takes neither of the two described paths: it neither acquires
the mutex and references the latest handle (the lock counter is unchanged)
nor returns a cached handle — it faults on the sentinel capture produced by
the swap helper's own plain pre-store. -/
theorem C3_get_takes_neither_described_path :
    allocSt1.slots 0 = none ∧
    (GetResouce allocSt1 0 true).fatalKind = some .slotProtocol ∧
    (GetResouce allocSt1 0 true).state.locks = allocSt1.locks := ⟨rfl, rfl, rfl⟩

/-- C4 (code_bug): when `DoneUsingResource`'s CAS from the sentinel succeeds
(so the caller performs no release), the next `UpdateResouce` does NOT
release the cached reference: its invalidation swap captures nil (plainly
pre-stored by the helper at source line 39) and skips the slot, leaving
handle 2 at refcount 1 with no remaining holder — released by neither
party, never disposed (empty dispose log, slot cleared, new latest
installed). -/
theorem C4_recached_reference_released_by_neither_party :
    c4Done.fatalKind = none ∧
    c4Done.state.slots 0 = some 2 ∧
    (getHandle c4Done.state 2).refcnt = 2 ∧
    c4Upd.fatalKind = none ∧
    (getHandle c4Upd.state 2).refcnt = 1 ∧
    c4Upd.state.deleted = [] ∧
    c4Upd.state.slots 0 = none ∧
    c4Upd.state.latest = 3 := ⟨rfl, rfl, rfl, rfl, rfl, rfl, rfl, rfl⟩

/-- C5 (code_bug): with worker slot 0 caching the outgoing latest handle
(id 2, refcount 2), `UpdateResouce`'s invalidation loop captures nil instead
of the cached handle (the swap helper pre-stores nil), releases nothing
inside the mutex, and the writer's final release then leaves the outgoing
handle at refcount 1: the outgoing resource is never disposed by the
writer's final release, contrary to the claim. -/
theorem C5_update_invalidation_releases_nothing_outgoing_leaked :
    stC5.latest = 2 ∧
    stC5.slots 0 = some 2 ∧
    c5Upd.fatalKind = none ∧
    (getHandle c5Upd.state 2).refcnt = 1 ∧
    c5Upd.state.deleted = [] ∧
    c5Upd.state.slots 0 = none := ⟨rfl, rfl, rfl, rfl, rfl, rfl⟩

/-- C6 (confirmed): for a handle wrapping an actual (non-nil) resource,
`Unref` behaves exactly as the spec describes releaseReference: decrement;
zero result disposes and returns true; negative result is a fatal
refcount-corruption error; otherwise false with the resource untouched. -/
theorem C6_unref_matches_spec_releaseReference (s : SPState) (p : HandleId) (r : Nat)
    (h : (getHandle s p).R = some r) :
    Unref s p = releaseReferenceSpec s p := by
  unfold Unref releaseReferenceSpec
  rw [h]
  simp

/-- Witness for C6 at a concrete input: handle 2 of `stC9` wraps resource 7. -/
theorem C6_unref_matches_spec_witness :
    Unref stC9 2 = releaseReferenceSpec stC9 2 :=
  C6_unref_matches_spec_releaseReference stC9 2 7 rfl

/-- C7 (code_bug): the ordering guarantee is never realizable, because no
`UpdateResouce` call ever completes (the first one faults invoking
`Delete()` on the nil bootstrap resource) and no `GetResouce` call ever
returns a handle (both modes fault on the sentinel capture). -/
theorem C7_no_update_completes_no_get_returns :
    (UpdateResouce allocSt1 7).fatalKind = some .nilDelete ∧
    (GetResouce allocSt1 0 false).value = none ∧
    (GetResouce allocSt1 0 true).value = none := ⟨rfl, rfl, rfl⟩

/-- C8 (confirmed): `AllocateGLocalImmRscHandle` returns `maxGID + 1` (hence
strictly increasing ids, starting from 0 since `initState.maxGID = -1`),
each successful id lies in `[0, CAPACITY)` with that worker's slot set to
the empty state, and the allocation attempted after `CAPACITY` workers have
been allocated faults (array index out of range on the slot store). -/
theorem C8_allocate_ids_and_capacity_fault (s : SPState) (h0 : -1 ≤ s.maxGID) :
    (s.maxGID + 1 < (CAPACITY : Int) →
      AllocateGLocalImmRscHandle s
        = .ok (s.maxGID + 1)
            (setSlot { s with maxGID := s.maxGID + 1 } (s.maxGID + 1).toNat none)
      ∧ 0 ≤ s.maxGID + 1) ∧
    ((CAPACITY : Int) ≤ s.maxGID + 1 →
      (AllocateGLocalImmRscHandle s).fatalKind = some .indexOutOfRange) ∧
    initState.maxGID = -1 := by
  have hcap : (CAPACITY : Int) = 1024 := rfl
  refine ⟨fun hlt => ⟨?_, by omega⟩, fun hge => ?_, rfl⟩
  · unfold AllocateGLocalImmRscHandle
    rw [if_neg (by omega)]
  · unfold AllocateGLocalImmRscHandle
    rw [if_pos (by omega)]
    rfl

/-- Witness for C8: the first allocation on the fresh package returns id 0
with an empty slot. -/
theorem C8_allocate_witness :
    AllocateGLocalImmRscHandle initState
      = .ok (initState.maxGID + 1)
          (setSlot { initState with maxGID := initState.maxGID + 1 }
            (initState.maxGID + 1).toNat none) :=
  ((C8_allocate_ids_and_capacity_fault initState (by decide)).1 (by decide)).1

/-- C9 (corrected, amended claim): `GetResouce` reports an unallocated or
out-of-range workerID as the fatal invalid-identifier error, but
`DoneUsingResource` performs no workerID validation at all: it can never
report the invalid-identifier error, for any state and any workerID. -/
theorem C9_get_validates_doneUsing_never_reports_invalid_id
    (s : SPState) (gID : Int) (mightShare : Bool) (hdl : HandleId)
    (h : gID < 0 ∨ s.maxGID < gID) :
    GetResouce s gID mightShare = .fatal .unallocatedGID s ∧
    (DoneUsingResource s gID hdl).fatalKind ≠ some .unallocatedGID := by
  constructor
  · unfold GetResouce
    rw [if_pos h]
  · unfold DoneUsingResource
    split
    · rename_i e s1 heq
      have hc := cas_no_unallocated s gID (some kInuseId) (some hdl)
      rw [heq] at hc
      simpa [SPResult.fatalKind] using hc
    · simp [SPResult.fatalKind]
    · rename_i s1 heq
      split
      · rename_i e s2 hequ
        have hu := unref_no_unallocated s1 hdl
        rw [hequ] at hu
        simpa [SPResult.fatalKind] using hu
      · simp [SPResult.fatalKind]

/-- Witness for C9 at a concrete input: workerID 5 is unallocated in `stC9`. -/
theorem C9_validation_witness :
    GetResouce stC9 5 false = .fatal .unallocatedGID stC9 ∧
    (DoneUsingResource stC9 5 2).fatalKind ≠ some .unallocatedGID :=
  C9_get_validates_doneUsing_never_reports_invalid_id stC9 5 false 2 (Or.inr (by decide))

/-- Counterexample for C9 as stated: in `stC9` no worker has ever been
allocated (`maxGID = -1`), yet `DoneUsingResource(0, 2)` proceeds without
any fatal error — it fails its CAS and releases the handle (refcount 2
drops to 1) instead of reporting an invalid-identifier error. -/
theorem C9_doneUsing_unallocated_proceeds :
    stC9.maxGID = -1 ∧
    (DoneUsingResource stC9 0 2).fatalKind = none ∧
    (getHandle (DoneUsingResource stC9 0 2).state 2).refcnt = 1 := ⟨rfl, rfl, rfl⟩

/-- C10 (code_bug): the first `UpdateResouce` call drives the bootstrap
placeholder handle (heap id 1, the initial `latestImmRscHandle`, wrapping
the nil resource) through the refcount 1 → 0 transition and invokes
`Delete()` on its nil resource, which faults at run time. -/
theorem C10_bootstrap_nil_resource_delete_invoked :
    initState.latest = 1 ∧
    (getHandle initState 1).R = none ∧
    updA7.fatalKind = some .nilDelete ∧
    (getHandle updA7.state 1).refcnt = 0 := ⟨rfl, rfl, rfl, rfl⟩
